import Mathlib

/-!
Shallow embedding of `claude-integration/notify_telegram.py`, a thin Telegram
notification client: it builds a JSON payload, posts it to a fixed webhook with
a shared-secret header, and maps the HTTP outcome to a `success`/`failure`
result dict.  The HTTP transport is modelled as an explicit outcome value
(either a raised exception or a final response); `datetime.now().isoformat()`
is modelled as an explicit `timestamp` argument.
-/

set_option autoImplicit false
set_option linter.unusedVariables false

/-- Model of a parsed JSON / Python value as returned by `response.json()`.
An `obj` is the parsed dict as an association list (keys unique after
parsing, looked up front-to-back). -/
inductive Json where
  | null
  | bool (b : Bool)
  | str (s : String)
  | num (n : Int)
  | arr (xs : List Json)
  | obj (fields : List (String × Json))

/-- The Python runtime type name of a value, as it appears in an
`AttributeError` message. -/
def Json.typeName : Json → String
  | .null => "NoneType"
  | .bool _ => "bool"
  | .str _ => "str"
  | .num _ => "int"
  | .arr _ => "list"
  | .obj _ => "dict"

/-- Whether a JSON value is an object (a Python dict after parsing). -/
def Json.isObj : Json → Bool
  | .obj _ => true
  | _ => false

/-- Python `value.get(key, default)`: on a dict it returns the entry for
`key` or the default; on any other value attribute lookup of `get` raises
`AttributeError` (modelled as the error branch of `Except`). -/
def dictGetD (j : Json) (key : String) (default : Json) : Except String Json :=
  match j with
  | .obj fields => .ok ((fields.lookup key).getD default)
  | other => .error ("'" ++ other.typeName ++ "' object has no attribute 'get'")

/-- How a value renders inside a Python f-string (`str(value)`).  Rendering of
composite values (lists/dicts) is not modelled; no code path under
verification prints one. -/
def pyStr : Json → String
  | .null => "None"
  | .bool b => if b then "True" else "False"
  | .str s => s
  | .num n => toString n
  | .arr _ => "<list>"
  | .obj _ => "<dict>"

/-- Python truthiness-based `a or d` on an optional list argument:
`None` and the empty list both fall back to the default. -/
def pyListOr (a : Option (List String)) (d : List String) : List String :=
  match a with
  | none => d
  | some [] => d
  | some l => l

/-- State of a `ClaudeTelegramNotifier` after `__init__`. -/
structure ClaudeTelegramNotifier where
  webhook_url : String
  webhook_secret : String
  default_instance : String

/-- `ClaudeTelegramNotifier.__init__`: `env_secret` is
`os.getenv("CLAUDE_WEBHOOK_SECRET")`, `none` when the variable is unset. -/
def mkNotifier (env_secret : Option String) : ClaudeTelegramNotifier :=
  { webhook_url := "https://telegram-monitor.vercel.app/api/claude-notify"
    webhook_secret := env_secret.getD "your-secret-key-here"
    default_instance := "general" }

/-- The keyword arguments of `ClaudeTelegramNotifier.notify`, with the
source's default values; `actions` defaults to Python `None`. -/
structure NotifyArgs where
  message : String
  topic : String := "general"
  context : String := ""
  requires_decision : Bool := false
  actions : Option (List String) := none
  priority : String := "medium"
  project : String := ""

/-- The `headers` dict built inside `notify`. -/
def notify_headers (n : ClaudeTelegramNotifier) : List (String × String) :=
  [("Content-Type", "application/json"),
   ("X-Claude-Secret", n.webhook_secret)]

/-- The `payload` dict built inside `notify` (the JSON request body). -/
def notify_payload (a : NotifyArgs) (timestamp : String) : List (String × Json) :=
  [("type", .str ("claude_" ++ a.topic)),
   ("message", .str a.message),
   ("context", .str a.context),
   ("instance", .str ("claude-" ++ a.topic)),
   ("project", .str a.project),
   ("requiresDecision", .bool a.requires_decision),
   ("actions", .arr ((pyListOr a.actions []).map Json.str)),
   ("priority", .str a.priority),
   ("timestamp", .str timestamp),
   ("source", .str "claude-code")]

/-- Outcome of the `requests.post` call: either a raised transport-level
exception (its `str(e)` message), or a final HTTP response carrying the
status code, the body text, and the result of `response.json()`
(error branch when the body is not valid JSON and `json()` raises). -/
inductive HttpOutcome where
  | exn (msg : String)
  | resp (status : Nat) (text : String) (jsonBody : Except String Json)

/-- `requests.Response.ok`: true unless `raise_for_status` would raise,
which it does exactly for status codes in `[400, 600)`. -/
def response_ok (status : Nat) : Bool :=
  if 400 ≤ status ∧ status < 600 then false else true

/-- Lines 57-61 of the source: `response.json()` followed by
`result.get("result", {}).get("topicId")` and
`result.get("result", {}).get("messageId")`; any step may raise. -/
def extract_ids (jsonBody : Except String Json) : Except String (Json × Json) :=
  match jsonBody with
  | .error e => .error e
  | .ok result =>
    match dictGetD result "result" (.obj []) with
    | .error e => .error e
    | .ok r1 =>
      match dictGetD r1 "topicId" .null with
      | .error e => .error e
      | .ok topic_id =>
        match dictGetD result "result" (.obj []) with
        | .error e => .error e
        | .ok r2 =>
          match dictGetD r2 "messageId" .null with
          | .error e => .error e
          | .ok message_id => .ok (topic_id, message_id)

/-- The dict returned by `notify`: `{"success": True, "topic_id": ...,
"message_id": ...}` or `{"success": False, "error": ...}`. -/
inductive NotifyResult where
  | success (topic_id : Json) (message_id : Json)
  | failure (error : String)

/-- `ClaudeTelegramNotifier.notify`, given the transport outcome of its
single `requests.post` call.  The broad `except Exception` turns any
raised exception into the failure dict. -/
def notify (n : ClaudeTelegramNotifier) (a : NotifyArgs) (timestamp : String)
    (outcome : HttpOutcome) : NotifyResult :=
  match n, a, outcome with
  | _, _, .exn msg => .failure msg
  | _, _, .resp status text jsonBody =>
    if response_ok status then
      match extract_ids jsonBody with
      | .ok (topic_id, message_id) => .success topic_id message_id
      | .error e => .failure e
    else
      .failure ("HTTP " ++ toString status ++ ": " ++ text)

/-- Arguments `request_decision` passes to `notify`:
`actions or ["Approve", "Reject", "More Info"]`. -/
def request_decision_args (decision_needed : String) (context : String)
    (actions : Option (List String)) (project : String) : NotifyArgs :=
  { message := "⚖️ Decision needed: " ++ decision_needed
    topic := "decisions"
    context := context
    requires_decision := true
    actions := some (pyListOr actions ["Approve", "Reject", "More Info"])
    project := project
    priority := "high" }

/-- The `priority_map` dict in `notify_system_alert`. -/
def priority_map : List (String × String) :=
  [("low", "low"), ("medium", "medium"), ("high", "high"), ("critical", "critical")]

/-- Arguments `notify_system_alert` passes to `notify`:
`priority_map.get(severity, "medium")`. -/
def notify_system_alert_args (alert : String) (severity : String)
    (context : String) : NotifyArgs :=
  { message := "📡 System alert: " ++ alert
    topic := "monitoring"
    context := context
    priority := (priority_map.lookup severity).getD "medium" }

/-- The topic list printed by the CLI usage text. -/
def cli_topics : List String :=
  ["general", "development", "content", "monitoring", "ai-research",
   "decisions", "automation"]

/-- The usage text printed when the CLI gets fewer than two positional
arguments, one entry per `print` call. -/
def usage_lines : List String :=
  ["Usage: python notify_telegram.py [topic] [message] [context?]",
   "\nAvailable topics:"]
  ++ cli_topics.map (fun t => "  - " ++ t)
  ++ ["\nExamples:",
      "  python notify_telegram.py development \"Code review completed\"",
      "  python notify_telegram.py decisions \"Deploy to production?\" \"All tests passed\""]

/-- Observable outcome of one CLI run: the `print` calls issued, the process
exit code, and whether a network request was attempted. -/
structure CliOutcome where
  printed : List String
  exit_code : Nat
  network_call : Bool

/-- The notify arguments the CLI builds from `sys.argv`:
`notify_claude(message, topic, context=context)` with the remaining
parameters at their defaults. -/
def cli_args (argv : List String) : NotifyArgs :=
  { message := argv.getD 2 ""
    topic := argv.getD 1 ""
    context := argv.getD 3 "" }

/-- The `__main__` block: `argv` models the full `sys.argv` (program name
first, so `argv.length < 3` is "fewer than 2 positional arguments"). -/
def main_cli (n : ClaudeTelegramNotifier) (argv : List String)
    (timestamp : String) (outcome : HttpOutcome) : CliOutcome :=
  if argv.length < 3 then
    { printed := usage_lines, exit_code := 1, network_call := false }
  else
    match notify n (cli_args argv) timestamp outcome with
    | .success topic_id message_id =>
      { printed := ["✅ Notification sent successfully!",
                    "Topic ID: " ++ pyStr topic_id,
                    "Message ID: " ++ pyStr message_id]
        exit_code := 0
        network_call := true }
    | .failure e =>
      { printed := ["❌ Failed to send notification: " ++ e]
        exit_code := 1
        network_call := true }

/-! ## Theorems -/

/-- Claim C2: for every input and every transport outcome, `notify` returns a
structured result (it is a total function into `NotifyResult`, so no exception
propagates), and a transport-level exception raised during the request yields
`failure` carrying exactly that exception's message. -/
theorem C2_no_exception_escapes (n : ClaudeTelegramNotifier) (a : NotifyArgs)
    (timestamp : String) :
    (∀ msg, notify n a timestamp (.exn msg) = .failure msg) ∧
    (∀ outcome, (∃ t m, notify n a timestamp outcome = .success t m) ∨
      (∃ e, notify n a timestamp outcome = .failure e)) := by
  refine ⟨fun msg => rfl, fun outcome => ?_⟩
  cases h : notify n a timestamp outcome with
  | success t m => exact Or.inl ⟨t, m, rfl⟩
  | failure e => exact Or.inr ⟨e, rfl⟩

/-- Claim C4: the request body maps `type` to `"claude_" + topic`, `instance`
to `"claude-" + topic`, `source` to the constant `"claude-code"`, and
`message`, `context`, `project`, `requiresDecision`, `actions` and `priority`
to the caller-supplied values (any priority string forwarded as-is). -/
theorem C4_payload_fields (message topic context : String) (rd : Bool)
    (l : List String) (priority project timestamp : String) :
    (notify_payload ⟨message, topic, context, rd, some l, priority, project⟩
        timestamp).lookup "type" = some (.str ("claude_" ++ topic)) ∧
    (notify_payload ⟨message, topic, context, rd, some l, priority, project⟩
        timestamp).lookup "instance" = some (.str ("claude-" ++ topic)) ∧
    (notify_payload ⟨message, topic, context, rd, some l, priority, project⟩
        timestamp).lookup "source" = some (.str "claude-code") ∧
    (notify_payload ⟨message, topic, context, rd, some l, priority, project⟩
        timestamp).lookup "message" = some (.str message) ∧
    (notify_payload ⟨message, topic, context, rd, some l, priority, project⟩
        timestamp).lookup "context" = some (.str context) ∧
    (notify_payload ⟨message, topic, context, rd, some l, priority, project⟩
        timestamp).lookup "project" = some (.str project) ∧
    (notify_payload ⟨message, topic, context, rd, some l, priority, project⟩
        timestamp).lookup "requiresDecision" = some (.bool rd) ∧
    (notify_payload ⟨message, topic, context, rd, some l, priority, project⟩
        timestamp).lookup "actions" = some (.arr (l.map Json.str)) ∧
    (notify_payload ⟨message, topic, context, rd, some l, priority, project⟩
        timestamp).lookup "priority" = some (.str priority) := by
  cases l <;> simp [notify_payload, List.lookup, pyListOr]

/-- Claim C5: `request_decision` with no actions supplied builds a payload
with `requiresDecision = true`, topic `decisions`, priority `high`, message
`"⚖️ Decision needed: " + decisionNeeded`, and the default actions
`["Approve", "Reject", "More Info"]`. -/
theorem C5_request_decision_defaults (decision_needed context project timestamp : String) :
    (request_decision_args decision_needed context none project).topic = "decisions" ∧
    (request_decision_args decision_needed context none project).message =
      "⚖️ Decision needed: " ++ decision_needed ∧
    (request_decision_args decision_needed context none project).priority = "high" ∧
    (notify_payload (request_decision_args decision_needed context none project)
        timestamp).lookup "requiresDecision" = some (.bool true) ∧
    (notify_payload (request_decision_args decision_needed context none project)
        timestamp).lookup "actions" =
      some (.arr [.str "Approve", .str "Reject", .str "More Info"]) := by
  refine ⟨rfl, rfl, rfl, ?_, ?_⟩ <;>
    simp [request_decision_args, notify_payload, pyListOr, List.lookup]

/-- Claim C10: `request_decision` with an explicitly empty actions list builds
the same payload as with no actions at all: Python `actions or [...]` treats
`[]` like `None`, so the default `["Approve", "Reject", "More Info"]` is sent. -/
theorem C10_empty_actions_defaulted (decision_needed context project timestamp : String) :
    (notify_payload (request_decision_args decision_needed context (some []) project)
        timestamp).lookup "actions" =
      some (.arr [.str "Approve", .str "Reject", .str "More Info"]) := by
  simp [request_decision_args, notify_payload, pyListOr, List.lookup]

/-- Claim C8: the `X-Claude-Secret` header carries the
`CLAUDE_WEBHOOK_SECRET` environment value when it was set at construction
time, and the placeholder literal `"your-secret-key-here"` when unset. -/
theorem C8_secret_header (s : String) :
    (notify_headers (mkNotifier (some s))).lookup "X-Claude-Secret" = some s ∧
    (notify_headers (mkNotifier none)).lookup "X-Claude-Secret" =
      some "your-secret-key-here" := by
  constructor <;> simp [notify_headers, mkNotifier, List.lookup]

/-- Claim C6: `notify_system_alert` uses topic `monitoring`, message
`"📡 System alert: " + alert`, and forwards the severity as priority when it
is one of low/medium/high/critical, defaulting to `"medium"` otherwise. -/
theorem C6_system_alert (alert severity context : String) :
    (notify_system_alert_args alert severity context).topic = "monitoring" ∧
    (notify_system_alert_args alert severity context).message =
      "📡 System alert: " ++ alert ∧
    (notify_system_alert_args alert severity context).priority =
      (if severity = "low" ∨ severity = "medium" ∨ severity = "high" ∨
        severity = "critical" then severity else "medium") := by
  refine ⟨rfl, rfl, ?_⟩
  by_cases h1 : severity = "low"
  · subst h1; simp [notify_system_alert_args, priority_map, List.lookup]
  by_cases h2 : severity = "medium"
  · subst h2; simp [notify_system_alert_args, priority_map, List.lookup]
  by_cases h3 : severity = "high"
  · subst h3; simp [notify_system_alert_args, priority_map, List.lookup]
  by_cases h4 : severity = "critical"
  · subst h4; simp [notify_system_alert_args, priority_map, List.lookup]
  rw [if_neg (by simp [h1, h2, h3, h4])]
  simp only [notify_system_alert_args, priority_map, List.lookup]
  rw [show (severity == "low") = false from beq_eq_false_iff_ne.mpr h1,
    show (severity == "medium") = false from beq_eq_false_iff_ne.mpr h2,
    show (severity == "high") = false from beq_eq_false_iff_ne.mpr h3,
    show (severity == "critical") = false from beq_eq_false_iff_ne.mpr h4]
  rfl

/-! ## Helper lemmas shared by the remaining claims -/

/-- On a response whose status is not a 4xx/5xx error, `notify` returns the
outcome of the id extraction over the parsed body. -/
theorem notify_resp_of_ok (n : ClaudeTelegramNotifier) (a : NotifyArgs)
    (ts text : String) (status : Nat) (jb : Except String Json)
    (h : response_ok status = true) :
    notify n a ts (.resp status text jb) =
      (match extract_ids jb with
       | .ok (t, m) => NotifyResult.success t m
       | .error e => NotifyResult.failure e) := by
  simp [notify, h]

/-- On a response whose status is a 4xx/5xx error, `notify` returns the
`"HTTP <status>: <body text>"` failure. -/
theorem notify_resp_of_not_ok (n : ClaudeTelegramNotifier) (a : NotifyArgs)
    (ts text : String) (status : Nat) (jb : Except String Json)
    (h : response_ok status = false) :
    notify n a ts (.resp status text jb) =
      .failure ("HTTP " ++ toString status ++ ": " ++ text) := by
  simp [notify, h]

/-- Extraction over a body whose `result` object carries both ids. -/
theorem extract_ids_pair (tid mid : Json) :
    extract_ids (.ok (.obj [("result",
        .obj [("topicId", tid), ("messageId", mid)])])) = .ok (tid, mid) := rfl

/-- Extraction over an empty JSON object body yields two `None`s. -/
theorem extract_ids_empty : extract_ids (.ok (.obj [])) = .ok (.null, .null) := rfl

/-- A `response.json()` exception propagates out of the extraction. -/
theorem extract_ids_err (e : String) : extract_ids (.error e) = .error e := rfl

/-- Claim C1 counterexample: a final response with status 304 (not 2xx, e.g.
`Not Modified`) and an empty JSON object body yields Success, because the
code tests `response.ok`, which requests defines as "status not in
[400, 600)", not as "status is 2xx". -/
theorem C1_counterexample :
    notify (mkNotifier none) { message := "hello" } "2024-01-01T00:00:00"
        (.resp 304 "" (.ok (.obj []))) = .success .null .null ∧
    ¬(200 ≤ 304 ∧ 304 < 300) :=
  ⟨rfl, by decide⟩

/-- Claim C1 as amended: the result is Success exactly when the response
status is not a 4xx/5xx error (requests' `ok`, rather than "2xx") and the
body extraction raises nothing; on Success, `topicId`/`messageId` equal the
values in the nested `result` object when present and are `None` otherwise,
and a body whose `json()` parse raises never yields Success. -/
theorem C1_success_conditions (n : ClaudeTelegramNotifier) (a : NotifyArgs)
    (ts text : String) (status : Nat) (tid mid : Json) :
    (notify n a ts (.resp status text
        (.ok (.obj [("result", .obj [("topicId", tid), ("messageId", mid)])]))) =
      .success tid mid ↔ ¬(400 ≤ status ∧ status < 600)) ∧
    (notify n a ts (.resp status text (.ok (.obj []))) = .success .null .null ↔
      ¬(400 ≤ status ∧ status < 600)) ∧
    (∀ emsg t m, notify n a ts (.resp status text (.error emsg)) ≠ .success t m) := by
  by_cases hc : 400 ≤ status ∧ status < 600
  · have hok : response_ok status = false := by simp [response_ok, hc]
    refine ⟨?_, ?_, ?_⟩
    · rw [notify_resp_of_not_ok n a ts text status _ hok]; simp [hc]
    · rw [notify_resp_of_not_ok n a ts text status _ hok]; simp [hc]
    · intro emsg t m
      rw [notify_resp_of_not_ok n a ts text status _ hok]
      exact fun h => NotifyResult.noConfusion h
  · have hok : response_ok status = true := by simp [response_ok, hc]
    refine ⟨?_, ?_, ?_⟩
    · rw [notify_resp_of_ok n a ts text status _ hok, extract_ids_pair]
      simp [hc]
    · rw [notify_resp_of_ok n a ts text status _ hok, extract_ids_empty]
      simp [hc]
    · intro emsg t m
      rw [notify_resp_of_ok n a ts text status _ hok, extract_ids_err]
      exact fun h => NotifyResult.noConfusion h

/-- Claim C1 witness: a 200 response carrying
`{"result":{"topicId":"t1","messageId":"m1"}}` yields
`Success{topicId:"t1", messageId:"m1"}`. -/
theorem C1_success_conditions_witness :
    notify (mkNotifier none) { message := "hello" } "ts"
        (.resp 200 "" (.ok (.obj [("result",
          .obj [("topicId", .str "t1"), ("messageId", .str "m1")])]))) =
      .success (.str "t1") (.str "m1") :=
  (C1_success_conditions (mkNotifier none) { message := "hello" } "ts" "" 200
    (.str "t1") (.str "m1")).1.mpr (by decide)

/-- Claim C3 counterexample: a final response with status 300 (not 2xx) and
an empty JSON object body yields Success, not the claimed
`Failure "HTTP 300: oops"`, because the code branches on `response.ok`
(status not in [400, 600)) rather than on "2xx". -/
theorem C3_counterexample :
    notify (mkNotifier none) { message := "hello" } "ts"
        (.resp 300 "oops" (.ok (.obj []))) = .success .null .null ∧
    notify (mkNotifier none) { message := "hello" } "ts"
        (.resp 300 "oops" (.ok (.obj []))) ≠ .failure "HTTP 300: oops" ∧
    ¬(200 ≤ 300 ∧ 300 < 300) :=
  by
  refine ⟨rfl, ?_, by decide⟩
  intro h
  have hs : notify (mkNotifier none) { message := "hello" } "ts"
      (.resp 300 "oops" (.ok (.obj []))) = NotifyResult.success .null .null := rfl
  rw [hs] at h
  exact NotifyResult.noConfusion h

/-- Claim C3 as amended: for every response whose status is a 4xx/5xx error
(rather than "any non-2xx"), `notify` returns Failure with error string
exactly `"HTTP <status>: <body text>"`. -/
theorem C3_http_error_failure (n : ClaudeTelegramNotifier) (a : NotifyArgs)
    (ts : String) (status : Nat) (text : String) (jb : Except String Json)
    (h1 : 400 ≤ status) (h2 : status < 600) :
    notify n a ts (.resp status text jb) =
      .failure ("HTTP " ++ toString status ++ ": " ++ text) :=
  notify_resp_of_not_ok n a ts text status jb (by simp [response_ok, h1, h2])

/-- Claim C3 witness: a 500 response with body `"server error"` yields
`Failure{error: "HTTP 500: server error"}`. -/
theorem C3_http_error_failure_witness :
    400 ≤ 500 ∧ 500 < 600 ∧
    notify (mkNotifier none) { message := "hello" } "ts"
        (.resp 500 "server error" (.error "invalid json")) =
      .failure "HTTP 500: server error" :=
  ⟨by decide, by decide,
   C3_http_error_failure (mkNotifier none) { message := "hello" } "ts" 500
     "server error" (.error "invalid json") (by decide) (by decide)⟩

/-- Claim C9: a 2xx response whose valid JSON body has a top-level `result`
field that is not an object makes `result.get("result", {}).get("topicId")`
raise `AttributeError`, which the broad except turns into Failure with that
message — not Success with null ids. -/
theorem C9_result_not_object (n : ClaudeTelegramNotifier) (a : NotifyArgs)
    (ts text : String) (status : Nat) (fields : List (String × Json)) (v : Json)
    (h1 : 200 ≤ status) (h2 : status < 300) (hv : v.isObj = false)
    (hf : fields.lookup "result" = some v) :
    notify n a ts (.resp status text (.ok (.obj fields))) =
      .failure ("'" ++ v.typeName ++ "' object has no attribute 'get'") := by
  have hok : response_ok status = true := by
    simp only [response_ok, ite_eq_right_iff]
    intro hc
    omega
  rw [notify_resp_of_ok n a ts text status _ hok]
  have hget : dictGetD (.obj fields) "result" (.obj []) = .ok v := by
    simp [dictGetD, hf]
  have hfail : dictGetD v "topicId" .null =
      .error ("'" ++ v.typeName ++ "' object has no attribute 'get'") := by
    cases v <;> simp_all [Json.isObj, dictGetD, Json.typeName]
  simp [extract_ids, hget, hfail]

/-- Claim C9 witness: a 200 response with body `{"result": "t1"}` yields the
`AttributeError` failure rather than a Success. -/
theorem C9_result_not_object_witness :
    200 ≤ 200 ∧ 200 < 300 ∧ Json.isObj (.str "t1") = false ∧
    [("result", Json.str "t1")].lookup "result" = some (Json.str "t1") ∧
    notify (mkNotifier none) { message := "hello" } "ts"
        (.resp 200 "" (.ok (.obj [("result", .str "t1")]))) =
      .failure "'str' object has no attribute 'get'" :=
  ⟨by decide, by decide, rfl, rfl,
   C9_result_not_object (mkNotifier none) { message := "hello" } "ts" "" 200
     [("result", Json.str "t1")] (.str "t1") (by decide) (by decide) rfl rfl⟩

/-- Claim C7: with fewer than 2 positional arguments (`sys.argv` shorter than
3 entries) the CLI prints the usage listing naming every known topic, makes
no network call and exits 1; with 2 or more it sends the notification and
exits 0 on success and 1 on failure. -/
theorem C7_cli_behavior (n : ClaudeTelegramNotifier) (argv : List String)
    (ts : String) (outcome : HttpOutcome) :
    (argv.length < 3 →
      main_cli n argv ts outcome =
        { printed := usage_lines, exit_code := 1, network_call := false } ∧
      ∀ t ∈ cli_topics, ("  - " ++ t) ∈ usage_lines) ∧
    (3 ≤ argv.length →
      (main_cli n argv ts outcome).network_call = true ∧
      (∀ tid mid, notify n (cli_args argv) ts outcome = .success tid mid →
        (main_cli n argv ts outcome).exit_code = 0) ∧
      (∀ e, notify n (cli_args argv) ts outcome = .failure e →
        (main_cli n argv ts outcome).exit_code = 1)) := by
  constructor
  · intro h
    refine ⟨by simp [main_cli, h], ?_⟩
    intro t ht
    simp only [usage_lines, List.mem_append, List.mem_map, List.mem_cons]
    exact Or.inl (Or.inr ⟨t, ht, rfl⟩)
  · intro h
    have h3 : ¬(argv.length < 3) := by omega
    refine ⟨?_, ?_, ?_⟩
    · simp only [main_cli, if_neg h3]
      cases hres : notify n (cli_args argv) ts outcome <;> simp
    · intro tid mid hres
      simp only [main_cli, if_neg h3, hres]
    · intro e hres
      simp only [main_cli, if_neg h3, hres]

/-- Claim C7 witness: with only the program name the CLI prints the usage
text without a network call and exits 1; with two positional arguments it
exits 0 when the send succeeds and 1 when the transport fails. -/
theorem C7_cli_behavior_witness :
    main_cli (mkNotifier none) ["notify_telegram.py"] "ts" (.exn "connection error") =
      { printed := usage_lines, exit_code := 1, network_call := false } ∧
    (main_cli (mkNotifier none) ["notify_telegram.py", "general", "hi"] "ts"
        (.resp 200 "" (.ok (.obj [])))).exit_code = 0 ∧
    (main_cli (mkNotifier none) ["notify_telegram.py", "general", "hi"] "ts"
        (.exn "connection error")).exit_code = 1 :=
  ⟨((C7_cli_behavior (mkNotifier none) ["notify_telegram.py"] "ts"
      (.exn "connection error")).1 (by decide)).1,
   ((C7_cli_behavior (mkNotifier none) ["notify_telegram.py", "general", "hi"] "ts"
      (.resp 200 "" (.ok (.obj [])))).2 (by decide)).2.1 .null .null rfl,
   ((C7_cli_behavior (mkNotifier none) ["notify_telegram.py", "general", "hi"] "ts"
      (.exn "connection error")).2 (by decide)).2.2 "connection error" rfl⟩
